import Mathlib

/-!
Shallow embedding of `ncatbot/plugin/base_plugin.py` (class `BasePlugin`):
plugin lifecycle management — construction, onload, unload, and the
event-handler subscription registry.  External collaborators (event bus,
persistent store, user hooks) are modelled at their interfaces: the bus as
explicit state, store and hook outcomes as environment values, and side
effects as explicit trace events.
-/

namespace NcatBot

/-- State of the path that will become the working directory: missing,
an existing directory, or an existing non-directory entry. -/
inductive FSEntry where
  | absent
  | dir
  | file
deriving DecidableEq, Repr

/-- The slice of file-system state that construction inspects and mutates:
the entry at the `workDir` path and whether `dataFile` exists. -/
structure FS where
  workDirEntry : FSEntry
  dataFileExists : Bool
deriving DecidableEq, Repr

/-- In-memory persisted data of a plugin (`self.data.data`), a flat stand-in
for the hierarchical mapping held by the store adapter. -/
abbrev PData := List (String × String)

/-- Dependency mapping (`dependencies`), name to version spec. -/
abbrev Deps := List (String × String)

/-- Instance state of a `BasePlugin` after construction: identity, resolved
paths, the debug flag, the first-load flag, the in-memory data, and the
`_event_handlers` token list. -/
structure Plugin where
  name : String
  version : String
  saveType : String
  dependencies : Deps
  workDir : String
  debug : Bool
  firstLoad : Bool
  dataIsDict : Bool
  data : PData
  handlers : List Nat
deriving DecidableEq, Repr

/-- Resolved `_data_path`: `workDir / name.saveType` (line 120 of the
source, bound once at construction). -/
def dataPath (p : Plugin) : String :=
  p.workDir ++ "/" ++ p.name ++ "." ++ p.saveType

/-- Path the onload self-heal writes to: the source hard-codes the `json`
suffix (`open(self._work_path / f..., w).write(...)`, line 179). -/
def healPath (p : Plugin) : String :=
  p.workDir ++ "/" ++ p.name ++ ".json"

/-- The empty object literal written by the self-heal. -/
def emptyObjectLiteral : String := "\x7b\x7d"

/-- Event bus state: the tokens with a live subscription and the next fresh
token (UUIDs are modelled as naturals issued in order). -/
structure EventBus where
  subs : List Nat
  nextTok : Nat
deriving DecidableEq, Repr

/-- Bus contract `subscribe`: returns a fresh token and records the
subscription. -/
def EventBus.subscribeTok (bus : EventBus) : Nat × EventBus :=
  (bus.nextTok, ⟨bus.nextTok :: bus.subs, bus.nextTok + 1⟩)

/-- Bus contract `unsubscribe`: drops the subscription for a token. -/
def EventBus.unsubscribeTok (bus : EventBus) (tok : Nat) : EventBus :=
  ⟨bus.subs.filter (fun t => t ≠ tok), bus.nextTok⟩

/-- `register_handler` (lines 267-281): subscribe with the bus, append the
returned token to `_event_handlers`, return the token. -/
def registerHandler (p : Plugin) (bus : EventBus) : (Plugin × EventBus) × Nat :=
  let r := bus.subscribeTok
  (({ p with handlers := p.handlers ++ [r.1] }, r.2), r.1)

/-- `unregister_handler` (lines 283-296), exactly as written: when the token
is in `_event_handlers` the code APPENDS it again and returns `True`;
otherwise it returns `False` and changes nothing. -/
def unregisterHandler (p : Plugin) (tok : Nat) : Plugin × Bool :=
  if tok ∈ p.handlers then
    ({ p with handlers := p.handlers ++ [tok] }, true)
  else
    (p, false)

/-- `unregister_handlers` (lines 298-302): call `unsubscribe` on the bus for
every token in `_event_handlers`; the list itself is not modified. -/
def unregisterHandlersBus (p : Plugin) (bus : EventBus) : EventBus :=
  p.handlers.foldl EventBus.unsubscribeTok bus

/-! ## Construction (`__init__`, lines 78-134) -/

/-- Class attributes the subclass declares before construction: `name` and
`version` (annotation-only, possibly `None` or empty), `save_type`
(class default is `json`) and `dependencies`.  `none` models a falsy or
unset value. -/
structure ClassAttrs where
  name : Option String
  version : Option String
  saveType : Option String
  dependencies : Option Deps
deriving DecidableEq, Repr

/-- Extra keyword arguments to the constructor: each `some` entry is set as
an attribute on the instance (line 101-103).  Only the attributes the
core itself reads are tracked. -/
structure Kwd where
  name : Option String
  version : Option String
  saveType : Option String
  dependencies : Option Deps
deriving DecidableEq, Repr

/-- Python truthiness of an optional string: `not x` holds when the
attribute is `None` or the empty string. -/
def isFalsy : Option String → Bool
  | none => true
  | some s => s = ""

/-- Errors construction can raise: `ValueError` for a missing identity
field, `PluginLoadError` when the resolved work path is not a directory. -/
inductive InitErr where
  | valueError (msg : String)
  | pluginLoadError (name : String) (msg : String)
deriving DecidableEq, Repr

/-- Applied keyword override: `setattr` replaces the class attribute when
the keyword dictionary provides the key. -/
def applyKwd (cls kw : Option String) : Option String :=
  match kw with
  | some v => some v
  | none => cls

/-- Construction, `__init__` (lines 78-134).  In source order: identity
check (raises before any side effect), keyword-attribute application,
`save_type` and `dependencies` defaulting, first-load computation with
`mkdir` of the missing work directory, directory check, store and
workspace binding.  `workDir` is the already-resolved work path and `fs`
the state of the file system at that path. -/
def init (attrs : ClassAttrs) (kwd : Kwd) (debug : Bool) (workDir : String)
    (fs : FS) : Except InitErr Plugin × FS :=
  if isFalsy attrs.name then (.error (.valueError "missing plugin name"), fs)
  else if isFalsy attrs.version then
    (.error (.valueError "missing plugin version"), fs)
  else
    let name := (applyKwd attrs.name kwd.name).getD ""
    let version := (applyKwd attrs.version kwd.version).getD ""
    let saveType0 := applyKwd attrs.saveType kwd.saveType
    let saveType := if isFalsy saveType0 then "json" else saveType0.getD ""
    let deps := match kwd.dependencies with
      | some d => if d = [] then [] else d
      | none => match attrs.dependencies with
        | some d => if d = [] then [] else d
        | none => []
    let step : FS × Bool :=
      match fs.workDirEntry with
      | .absent => (⟨.dir, fs.dataFileExists⟩, true)
      | e => (⟨e, fs.dataFileExists⟩, !fs.dataFileExists)
    if step.1.workDirEntry ≠ .dir then
      (.error (.pluginLoadError name "work path is not a directory"), step.1)
    else
      (.ok { name := name, version := version, saveType := saveType,
             dependencies := deps, workDir := workDir, debug := debug,
             firstLoad := step.2, dataIsDict := false, data := [],
             handlers := [] }, step.1)

/-! ## Unload (`__unload__`, lines 141-160) -/

deriving instance DecidableEq for Except

/-- Positional and keyword arguments forwarded by the caller of
`__unload__` to both close hooks. -/
structure CallArgs where
  pos : List String
  kw : List (String × String)
deriving DecidableEq, Repr

/-- Failure kinds of the store `save` call, the exception types the
`except` clause of `__unload__` (line 159) catches. -/
inductive SaveErr where
  | fileTypeUnknown
  | saveError
  | fileNotFound
deriving DecidableEq, Repr

/-- Outcomes of the external collaborators during one `__unload__` call:
the user sync close hook, the user async `on_close` hook, and the
store `save`. -/
structure UnloadEnv where
  closeSyncRes : Except String Unit
  closeAsyncRes : Except String Unit
  saveRes : Except SaveErr Unit
deriving DecidableEq, Repr

/-- Observable actions of one `__unload__` call, in execution order. -/
inductive UnloadEv where
  | unsubscribe (tok : Nat)
  | closeSync (args : CallArgs)
  | closeAsync (args : CallArgs)
  | warnSkipSave
  | dumpData (d : PData)
  | save (path : String) (content : PData)
deriving DecidableEq, Repr

/-- Errors `__unload__` can surface: an uncaught user-hook exception, or
the `RuntimeError` wrapping the plugin name and the save failure. -/
inductive UnloadErr where
  | hookErr (msg : String)
  | runtimeError (name : String) (cause : SaveErr)
deriving DecidableEq, Repr

/-- Uniform boolean saying every collaborator outcome in the environment is
a success. -/
def UnloadEnv.allOk (env : UnloadEnv) : Bool :=
  match env.closeSyncRes, env.closeAsyncRes, env.saveRes with
  | .ok _, .ok _, .ok _ => true
  | _, _, _ => false

/-- `__unload__` (lines 141-160): unregister all handlers with the bus,
dispatch the sync close hook off-thread, await `on_close` (both with the
caller arguments), then persist — in debug mode warn and dump instead of
saving, otherwise save and wrap a save failure in `RuntimeError` with the
plugin name.  Returns the final plugin and bus state, the action trace,
and the outcome. -/
def unload (p : Plugin) (bus : EventBus) (args : CallArgs) (env : UnloadEnv) :
    (Plugin × EventBus) × List UnloadEv × Except UnloadErr Unit :=
  let bus1 := unregisterHandlersBus p bus
  let t0 := p.handlers.map UnloadEv.unsubscribe
  match env.closeSyncRes with
  | .error m => ((p, bus1), t0 ++ [.closeSync args], .error (.hookErr m))
  | .ok _ =>
    match env.closeAsyncRes with
    | .error m =>
        ((p, bus1), t0 ++ [.closeSync args, .closeAsync args], .error (.hookErr m))
    | .ok _ =>
      if p.debug then
        ((p, bus1),
         t0 ++ [.closeSync args, .closeAsync args, .warnSkipSave, .dumpData p.data],
         .ok ())
      else
        match env.saveRes with
        | .ok _ =>
            ((p, bus1),
             t0 ++ [.closeSync args, .closeAsync args, .save (dataPath p) p.data],
             .ok ())
        | .error e =>
            ((p, bus1),
             t0 ++ [.closeSync args, .closeAsync args, .save (dataPath p) p.data],
             .error (.runtimeError p.name e))

/-! ## Onload (`__onload__`, lines 162-182) -/

/-- Failure kinds of the store `load` call.  The first three are the
exception types the `except` clause of `__onload__` (line 178) catches;
`otherError` stands for any other exception. -/
inductive LoadErr where
  | fileTypeUnknown
  | loadError
  | fileNotFound
  | otherError (msg : String)
deriving DecidableEq, Repr

/-- Whether a load failure is one of the recognized (caught) exception
types. -/
def LoadErr.recognized : LoadErr → Bool
  | .otherError _ => false
  | _ => true

/-- Outcomes of the external collaborators during one `__onload__` call:
the first `data.load()`, the retried `data.load()` after self-heal, the
user sync init hook, and the user async `on_load` hook. -/
structure OnloadEnv where
  firstLoadRes : Except LoadErr Unit
  retryLoadRes : Except LoadErr Unit
  initRes : Except String Unit
  onLoadRes : Except String Unit
deriving DecidableEq, Repr

/-- Observable actions of one `__onload__` call, in execution order. -/
inductive OnloadEv where
  | wrapDictData
  | loadAttempt (path : String)
  | writeFile (path : String) (content : String)
  | initHook
  | onLoadHook
deriving DecidableEq, Repr

/-- Errors `__onload__` can surface: a load failure that escaped the single
self-heal (propagated unwrapped), or an uncaught user-hook exception. -/
inductive OnloadErr where
  | loadErr (e : LoadErr)
  | hookErr (msg : String)
deriving DecidableEq, Repr

/-- Hook tail of `__onload__`: off-thread `_init_` then awaited `on_load`,
either of which may raise uncaught. -/
def onloadHooks (t : List OnloadEv) (env : OnloadEnv) :
    List OnloadEv × Except OnloadErr Unit :=
  match env.initRes with
  | .error m => (t ++ [.initHook], .error (.hookErr m))
  | .ok _ =>
    match env.onLoadRes with
    | .error m => (t ++ [.initHook, .onLoadHook], .error (.hookErr m))
    | .ok _ => (t ++ [.initHook, .onLoadHook], .ok ())

/-- `__onload__` (lines 162-182): wrap a raw-dict data attribute into a
fresh store, attempt `data.load()`; on a recognized failure write the
empty object literal to `workDir/name.json` (the suffix is hard-coded)
and retry the load once, letting a retry failure propagate unwrapped;
then run the init hooks. -/
def onload (p : Plugin) (env : OnloadEnv) : List OnloadEv × Except OnloadErr Unit :=
  let pre : List OnloadEv := if p.dataIsDict then [.wrapDictData] else []
  match env.firstLoadRes with
  | .ok _ => onloadHooks (pre ++ [.loadAttempt (dataPath p)]) env
  | .error e =>
    if e.recognized then
      let t := pre ++ [.loadAttempt (dataPath p),
                       .writeFile (healPath p) emptyObjectLiteral,
                       .loadAttempt (dataPath p)]
      match env.retryLoadRes with
      | .ok _ => onloadHooks t env
      | .error e2 => (t, .error (.loadErr e2))
    else
      (pre ++ [.loadAttempt (dataPath p)], .error (.loadErr e))

/-! ## Operation sequences over the handler registry -/

/-- One registry operation a plugin may perform while running: a
`register_handler` call or a manual `unregister_handler` call. -/
inductive Op where
  | register
  | unregister (tok : Nat)
deriving DecidableEq, Repr

/-- Run a sequence of registry operations from a state, collecting the list
of tokens `register_handler` returned (the handlers this instance
registered). -/
def runOps : List Op → Plugin × EventBus → (Plugin × EventBus) × List Nat
  | [], st => (st, [])
  | .register :: ops, st =>
      let r := registerHandler st.1 st.2
      let rest := runOps ops r.1
      (rest.1, r.2 :: rest.2)
  | .unregister tok :: ops, st =>
      runOps ops ((unregisterHandler st.1 tok).1, st.2)

/-- Iterate `unregister_handler` on the same token `k` times (a scenario
driver, not source code). -/
def unregisterK (p : Plugin) (tok : Nat) : Nat → Plugin
  | 0 => p
  | k + 1 => unregisterK (unregisterHandler p tok).1 tok k

/-- Canonical complete action sequence of one `__unload__` invocation, the
order the spec describes: revocations, sync close hook, async close
hook, persistence step. -/
def fullUnloadTrace (p : Plugin) (args : CallArgs) : List UnloadEv :=
  p.handlers.map UnloadEv.unsubscribe ++
    [.closeSync args, .closeAsync args] ++
    (if p.debug then [.warnSkipSave, .dumpData p.data]
     else [.save (dataPath p) p.data])

/-- Portion of the unload trace after the revocations, as a function of the
collaborator outcomes. -/
def tailTrace (p : Plugin) (args : CallArgs) (env : UnloadEnv) : List UnloadEv :=
  match env.closeSyncRes with
  | .error _ => [.closeSync args]
  | .ok _ =>
    match env.closeAsyncRes with
    | .error _ => [.closeSync args, .closeAsync args]
    | .ok _ =>
      if p.debug then
        [.closeSync args, .closeAsync args, .warnSkipSave, .dumpData p.data]
      else
        [.closeSync args, .closeAsync args, .save (dataPath p) p.data]

/-! ## Helper lemmas -/

theorem unload_fst_plugin (p : Plugin) (bus : EventBus) (args : CallArgs)
    (env : UnloadEnv) : ((unload p bus args env).1).1 = p := by
  rcases env with ⟨cs, ca, sr⟩
  cases cs <;> cases ca <;> cases sr <;>
    simp [unload] <;> split <;> rfl

theorem unload_fst_bus (p : Plugin) (bus : EventBus) (args : CallArgs)
    (env : UnloadEnv) :
    ((unload p bus args env).1).2 = unregisterHandlersBus p bus := by
  rcases env with ⟨cs, ca, sr⟩
  cases cs <;> cases ca <;> cases sr <;>
    simp [unload] <;> split <;> rfl

theorem unload_trace_eq (p : Plugin) (bus : EventBus) (args : CallArgs)
    (env : UnloadEnv) :
    (unload p bus args env).2.1 =
      p.handlers.map UnloadEv.unsubscribe ++ tailTrace p args env := by
  rcases env with ⟨cs, ca, sr⟩
  cases cs <;> cases ca <;> cases sr <;>
    simp [unload, tailTrace] <;> split <;> rfl

theorem unsubscribe_not_mem_tailTrace (p : Plugin) (args : CallArgs)
    (env : UnloadEnv) (tok : Nat) :
    UnloadEv.unsubscribe tok ∉ tailTrace p args env := by
  rcases env with ⟨cs, ca, sr⟩
  cases cs <;> cases ca <;> cases sr <;>
    simp [tailTrace] <;> split <;> simp

theorem mem_unsubscribeTok_subs (bus : EventBus) (tok t : Nat) :
    t ∈ (bus.unsubscribeTok tok).subs ↔ t ∈ bus.subs ∧ t ≠ tok := by
  simp [EventBus.unsubscribeTok, List.mem_filter]

theorem not_mem_foldl_unsubscribe_of_not_mem (L : List Nat) (bus : EventBus)
    (t : Nat) (h : t ∉ bus.subs) :
    t ∉ (L.foldl EventBus.unsubscribeTok bus).subs := by
  induction L generalizing bus with
  | nil => exact h
  | cons a L ih =>
      exact ih _ (fun hm => h ((mem_unsubscribeTok_subs bus a t).1 hm).1)

theorem not_mem_foldl_unsubscribe (L : List Nat) (bus : EventBus) (t : Nat)
    (h : t ∈ L) : t ∉ (L.foldl EventBus.unsubscribeTok bus).subs := by
  induction L generalizing bus with
  | nil => cases h
  | cons a L ih =>
      rcases List.mem_cons.1 h with rfl | hm
      · by_cases hl : t ∈ L
        · exact ih _ hl
        · refine not_mem_foldl_unsubscribe_of_not_mem L _ t ?_
          intro hmem
          exact ((mem_unsubscribeTok_subs bus t t).1 hmem).2 rfl
      · exact ih _ hm

theorem mem_handlers_registerHandler (p : Plugin) (bus : EventBus) (t : Nat)
    (h : t ∈ p.handlers) : t ∈ ((registerHandler p bus).1.1).handlers := by
  simp [registerHandler]
  exact Or.inl h

theorem mem_handlers_unregisterHandler (p : Plugin) (tok t : Nat)
    (h : t ∈ p.handlers) : t ∈ ((unregisterHandler p tok).1).handlers := by
  by_cases hm : tok ∈ p.handlers
  · simp [unregisterHandler, hm]
    exact Or.inl h
  · simpa [unregisterHandler, hm] using h

theorem mem_handlers_runOps (ops : List Op) (st : Plugin × EventBus) (t : Nat)
    (h : t ∈ st.1.handlers) : t ∈ ((runOps ops st).1.1).handlers := by
  induction ops generalizing st with
  | nil => exact h
  | cons op ops ih =>
      cases op with
      | register =>
          exact ih _ (mem_handlers_registerHandler st.1 st.2 t h)
      | unregister tok =>
          exact ih _ (mem_handlers_unregisterHandler st.1 tok t h)

theorem issued_mem_handlers (ops : List Op) (st : Plugin × EventBus) (t : Nat)
    (h : t ∈ (runOps ops st).2) : t ∈ ((runOps ops st).1.1).handlers := by
  induction ops generalizing st with
  | nil => cases h
  | cons op ops ih =>
      cases op with
      | register =>
          rcases List.mem_cons.1 h with rfl | hm
          · refine mem_handlers_runOps ops _ _ ?_
            simp [registerHandler]
          · exact ih _ hm
      | unregister tok => exact ih _ h

theorem unregisterHandler_mem_eq (p : Plugin) (tok : Nat)
    (h : tok ∈ p.handlers) :
    unregisterHandler p tok = ({ p with handlers := p.handlers ++ [tok] }, true) := by
  simp [unregisterHandler, h]

theorem unregisterK_count_mem (p : Plugin) (tok : Nat) (k : Nat)
    (h : tok ∈ p.handlers) :
    (unregisterK p tok k).handlers.count tok = p.handlers.count tok + k ∧
      tok ∈ (unregisterK p tok k).handlers := by
  induction k generalizing p with
  | zero => exact ⟨rfl, h⟩
  | succ k ih =>
      have he := unregisterHandler_mem_eq p tok h
      have h2 : tok ∈ (unregisterHandler p tok).1.handlers := by
        rw [he]; simp
      have := ih (unregisterHandler p tok).1 h2
      refine ⟨?_, this.2⟩
      rw [unregisterK, this.1, he]
      simp [List.count_append]
      omega

theorem count_map_unsubscribe (l : List Nat) (tok : Nat) :
    (l.map UnloadEv.unsubscribe).count (UnloadEv.unsubscribe tok) = l.count tok :=
  List.count_map_of_injective l UnloadEv.unsubscribe
    (fun a b hab => by injection hab) tok

theorem count_unsubscribe_unload (p : Plugin) (bus : EventBus)
    (args : CallArgs) (env : UnloadEnv) (tok : Nat) :
    ((unload p bus args env).2.1).count (UnloadEv.unsubscribe tok) =
      p.handlers.count tok := by
  rw [unload_trace_eq, List.count_append, count_map_unsubscribe,
    List.count_eq_zero.2 (unsubscribe_not_mem_tailTrace p args env tok)]
  omega

theorem save_not_mem_map_unsubscribe (l : List Nat) (path : String)
    (c : PData) : UnloadEv.save path c ∉ l.map UnloadEv.unsubscribe := by
  simp [List.mem_map]

/-! ## Concrete sample inputs used by witnesses and counterexamples -/

def samplePlugin : Plugin :=
  { name := "p", version := "1.0", saveType := "json", dependencies := [],
    workDir := "w", debug := false, firstLoad := true, dataIsDict := false,
    data := [("count", "1")], handlers := [] }

def sampleBus : EventBus := ⟨[], 0⟩

def sampleArgs : CallArgs := ⟨["why"], [("who", "host")]⟩

def envAllOk : UnloadEnv := ⟨.ok (), .ok (), .ok ()⟩

def envSaveFail : UnloadEnv := ⟨.ok (), .ok (), .error .saveError⟩

/-! ## Claims -/

/-- Claim C1 (code bug, evaluated at the failing input): called with the
tracked token 5, the source `unregister_handler` returns `True` but the
token is STILL tracked afterwards — the code appends the token a second
time instead of destroying the registration, so the registry ends as
`[5, 5]`.  The claim that a call returning true leaves the token no
longer tracked is what the spec intends and the code violates. -/
theorem c1_unregister_keeps_token_tracked :
    (unregisterHandler { samplePlugin with handlers := [5] } 5).2 = true ∧
    (unregisterHandler { samplePlugin with handlers := [5] } 5).1.handlers
      = [5, 5] ∧
    5 ∈ (unregisterHandler { samplePlugin with handlers := [5] } 5).1.handlers := by
  refine ⟨rfl, rfl, by decide⟩

/-- Claim C9: the tracked handler list never shrinks.  `register_handler`
appends exactly the fresh token; a successful `unregister_handler`
appends the already tracked token again and returns true; any
`unregister_handler` call extends the list; unload leaves the list
unchanged while `unregister_handlers` revokes every listed token with
the bus; and a token registered once then successfully unregistered `k`
times is unsubscribed `k + 1` times in the unload trace. -/
theorem c9_registry_never_shrinks (p : Plugin) (bus bus2 : EventBus)
    (args : CallArgs) (env : UnloadEnv) (tok k : Nat)
    (htok : tok ∈ p.handlers) (hfresh : bus.nextTok ∉ p.handlers) :
    (registerHandler p bus).1.1.handlers
        = p.handlers ++ [(registerHandler p bus).2] ∧
    unregisterHandler p tok
        = ({ p with handlers := p.handlers ++ [tok] }, true) ∧
    (∀ tok2, ∃ ext, (unregisterHandler p tok2).1.handlers = p.handlers ++ ext) ∧
    ((unload p bus2 args env).1.1).handlers = p.handlers ∧
    (∀ t ∈ p.handlers, t ∉ (unregisterHandlersBus p bus2).subs) ∧
    ((unload (unregisterK (registerHandler p bus).1.1 (registerHandler p bus).2 k)
        bus2 args env).2.1).count
        (UnloadEv.unsubscribe (registerHandler p bus).2) = k + 1 := by
  refine ⟨rfl, unregisterHandler_mem_eq p tok htok, ?_, ?_, ?_, ?_⟩
  · intro tok2
    by_cases hm : tok2 ∈ p.handlers
    · exact ⟨[tok2], by simp [unregisterHandler, hm]⟩
    · exact ⟨[], by simp [unregisterHandler, hm]⟩
  · rw [unload_fst_plugin]
  · intro t ht
    exact not_mem_foldl_unsubscribe _ _ _ ht
  · rw [count_unsubscribe_unload]
    have hmem : (registerHandler p bus).2 ∈ (registerHandler p bus).1.1.handlers := by
      simp [registerHandler]
    have hcount := (unregisterK_count_mem (registerHandler p bus).1.1
      (registerHandler p bus).2 k hmem).1
    rw [hcount]
    have hzero : p.handlers.count (registerHandler p bus).2 = 0 :=
      List.count_eq_zero.2 hfresh
    simp [registerHandler, List.count_append] at hcount ⊢
    simp [registerHandler] at hzero
    omega

/-- Claim C9 witness at a concrete input: one prior tracked token 5, fresh
token 7 issued by register, then two successful unregister calls; the
unload trace unsubscribes token 7 three times. -/
theorem c9_witness :
    ((unload (unregisterK (registerHandler { samplePlugin with handlers := [5] }
        ⟨[], 7⟩).1.1 (registerHandler { samplePlugin with handlers := [5] }
        ⟨[], 7⟩).2 2) sampleBus sampleArgs envAllOk).2.1).count
        (UnloadEv.unsubscribe (registerHandler { samplePlugin with handlers := [5] }
        ⟨[], 7⟩).2) = 2 + 1 :=
  (c9_registry_never_shrinks { samplePlugin with handlers := [5] } ⟨[], 7⟩
    sampleBus sampleArgs envAllOk 5 2 (by simp) (by simp)).2.2.2.2.2

/-- Claim C3: after the unload sequence returns — whether it succeeded or
any close hook or the save step failed — every token that
`register_handler` issued during an arbitrary interleaving of register
and manual unregister calls has no remaining subscription with the
event bus. -/
theorem c3_no_handler_survives_unload (p0 : Plugin) (bus0 : EventBus)
    (ops : List Op) (args : CallArgs) (env : UnloadEnv) (t : Nat)
    (h : t ∈ (runOps ops (p0, bus0)).2) :
    t ∉ ((unload (runOps ops (p0, bus0)).1.1 (runOps ops (p0, bus0)).1.2
        args env).1.2).subs := by
  have hm := issued_mem_handlers ops (p0, bus0) t h
  rw [unload_fst_bus]
  exact not_mem_foldl_unsubscribe _ _ _ hm

/-- Claim C3 witness: register, manually unregister the issued token 0,
register again; after an unload whose save step fails, token 0 has no
subscription with the bus. -/
theorem c3_witness :
    (0 : Nat) ∉ ((unload
        (runOps [.register, .unregister 0, .register] (samplePlugin, sampleBus)).1.1
        (runOps [.register, .unregister 0, .register] (samplePlugin, sampleBus)).1.2
        sampleArgs envSaveFail).1.2).subs :=
  c3_no_handler_survives_unload samplePlugin sampleBus
    [.register, .unregister 0, .register] sampleArgs envSaveFail 0 (by decide)

/-- Claim C4: every unload invocation follows the strict sequential order
revoke handlers, sync close hook, async close hook, persistence step —
the emitted trace is always an initial segment of the canonical
sequence (both hooks receive the caller arguments), and when every
collaborator succeeds it is exactly that sequence. -/
theorem c4_unload_strict_order (p : Plugin) (bus : EventBus) (args : CallArgs)
    (env : UnloadEnv) :
    (∃ rest, fullUnloadTrace p args = (unload p bus args env).2.1 ++ rest) ∧
    (env.allOk = true → (unload p bus args env).2.1 = fullUnloadTrace p args) := by
  rw [unload_trace_eq]
  constructor
  · rcases env with ⟨cs, ca, sr⟩
    cases cs <;> cases ca <;> cases sr <;>
      by_cases hd : p.debug <;>
        simp [fullUnloadTrace, tailTrace, hd]
  · intro hok
    rcases env with ⟨cs, ca, sr⟩
    cases cs <;> cases ca <;> cases sr <;> simp_all [UnloadEnv.allOk]
    by_cases hd : p.debug <;> simp [fullUnloadTrace, tailTrace, hd]

/-- Claim C4 witness: with all collaborators succeeding at concrete
arguments, the unload trace equals the canonical full sequence. -/
theorem c4_witness :
    (unload { samplePlugin with handlers := [3] } sampleBus sampleArgs
        envAllOk).2.1 =
      fullUnloadTrace { samplePlugin with handlers := [3] } sampleArgs :=
  (c4_unload_strict_order { samplePlugin with handlers := [3] } sampleBus
    sampleArgs envAllOk).2 rfl

/-- Claim C5: when the debug flag is unset and the close hooks complete,
a save failure of any of the catchable kinds (save error, unknown
format, missing file) makes unload raise the runtime error carrying the
plugin name and the underlying cause, and the trace holds exactly one
save attempt — no self-heal retry before raising. -/
theorem c5_save_failure_raises_runtime_error (p : Plugin) (bus : EventBus)
    (args : CallArgs) (env : UnloadEnv) (e : SaveErr)
    (hd : p.debug = false) (hs : env.closeSyncRes = .ok ())
    (ha : env.closeAsyncRes = .ok ()) (he : env.saveRes = .error e) :
    (unload p bus args env).2.2 = .error (.runtimeError p.name e) ∧
    ((unload p bus args env).2.1).count (UnloadEv.save (dataPath p) p.data)
      = 1 := by
  rcases env with ⟨cs, ca, sr⟩
  simp only at hs ha he
  subst hs; subst ha; subst he
  constructor
  · simp [unload, hd]
  · rw [unload_trace_eq, List.count_append,
      List.count_eq_zero.2 (save_not_mem_map_unsubscribe p.handlers _ _)]
    simp [tailTrace, hd]

/-- Claim C5 witness: at a concrete plugin with one handler and a failing
save, unload reports the runtime error named after the plugin and the
trace holds one save attempt. -/
theorem c5_witness :
    (unload { samplePlugin with handlers := [3] } sampleBus sampleArgs
        envSaveFail).2.2 =
      .error (.runtimeError "p" .saveError) ∧
    ((unload { samplePlugin with handlers := [3] } sampleBus sampleArgs
        envSaveFail).2.1).count
      (UnloadEv.save (dataPath { samplePlugin with handlers := [3] })
        { samplePlugin with handlers := [3] }.data) = 1 :=
  c5_save_failure_raises_runtime_error { samplePlugin with handlers := [3] }
    sampleBus sampleArgs envSaveFail .saveError rfl rfl rfl rfl

/-- Claim C6: with the debug flag set, no unload invocation ever emits a
save action, whatever the in-memory data and collaborator outcomes, and
a debug unload that reaches the persistence step emits the console
warning and the structural data dump; with the flag unset, an unload
that reaches the persistence step attempts to save the current
in-memory content to the data file. -/
theorem c6_debug_unload_never_saves (p : Plugin) (bus : EventBus)
    (args : CallArgs) (env : UnloadEnv) :
    (p.debug = true →
      (∀ path c, UnloadEv.save path c ∉ (unload p bus args env).2.1) ∧
      (env.closeSyncRes = .ok () → env.closeAsyncRes = .ok () →
        UnloadEv.warnSkipSave ∈ (unload p bus args env).2.1 ∧
        UnloadEv.dumpData p.data ∈ (unload p bus args env).2.1)) ∧
    (p.debug = false → env.closeSyncRes = .ok () → env.closeAsyncRes = .ok () →
      UnloadEv.save (dataPath p) p.data ∈ (unload p bus args env).2.1) := by
  rw [unload_trace_eq]
  rcases env with ⟨cs, ca, sr⟩
  constructor
  · intro hd
    constructor
    · intro path c
      cases cs <;> cases ca <;>
        simp [tailTrace, hd, save_not_mem_map_unsubscribe]
    · intro hs ha
      simp only at hs ha
      subst hs; subst ha
      simp [tailTrace, hd]
  · intro hd hs ha
    simp only at hs ha
    subst hs; subst ha
    simp [tailTrace, hd]

/-- Claim C6 witness: a concrete debug-mode unload emits no save action for
the data-file path and does emit the warning and the dump; the same
plugin with debug unset attempts the save. -/
theorem c6_witness :
    UnloadEv.save (dataPath { samplePlugin with debug := true })
        { samplePlugin with debug := true }.data ∉
      (unload { samplePlugin with debug := true } sampleBus sampleArgs
        envAllOk).2.1 ∧
    UnloadEv.warnSkipSave ∈
      (unload { samplePlugin with debug := true } sampleBus sampleArgs
        envAllOk).2.1 ∧
    UnloadEv.save (dataPath samplePlugin) samplePlugin.data ∈
      (unload samplePlugin sampleBus sampleArgs envAllOk).2.1 := by
  have hd := c6_debug_unload_never_saves { samplePlugin with debug := true }
    sampleBus sampleArgs envAllOk
  have hn := c6_debug_unload_never_saves samplePlugin sampleBus sampleArgs
    envAllOk
  exact ⟨(hd.1 rfl).1 _ _, ((hd.1 rfl).2 rfl rfl).1, hn.2 rfl rfl rfl⟩

/-- Claim C2 counterexample: with save type `yaml`, an onload whose first
load fails writes the empty object literal to `w/p.json`, not to the
data file `w/p.yaml` as the claim states — the self-heal path hard-codes
the json suffix. -/
theorem c2_heal_misses_dataFile :
    dataPath { samplePlugin with saveType := "yaml" } = "w/p.yaml" ∧
    healPath { samplePlugin with saveType := "yaml" } = "w/p.json" ∧
    (onload { samplePlugin with saveType := "yaml" }
        ⟨.error .loadError, .error .loadError, .ok (), .ok ()⟩).1 =
      [.loadAttempt "w/p.yaml", .writeFile "w/p.json" emptyObjectLiteral,
       .loadAttempt "w/p.yaml"] ∧
    OnloadEv.writeFile (dataPath { samplePlugin with saveType := "yaml" })
        emptyObjectLiteral ∉
      (onload { samplePlugin with saveType := "yaml" }
        ⟨.error .loadError, .error .loadError, .ok (), .ok ()⟩).1 := by
  refine ⟨rfl, rfl, rfl, by decide⟩

/-- Claim C2 (amended): on a recognized first load failure during onload,
the core writes the empty object literal to `workDir/<name>.json` — the
data file itself only when the save type is json — and retries the load
exactly once (two load attempts in total); a failure of that single
retry is not caught and propagates to the caller. -/
theorem c2_selfheal_writes_json_once (p : Plugin) (env : OnloadEnv)
    (e : LoadErr) (h1 : env.firstLoadRes = .error e)
    (hrec : e.recognized = true) :
    OnloadEv.writeFile (healPath p) emptyObjectLiteral ∈ (onload p env).1 ∧
    ((onload p env).1).count (OnloadEv.loadAttempt (dataPath p)) = 2 ∧
    (∀ e2, env.retryLoadRes = .error e2 →
      (onload p env).2 = .error (.loadErr e2)) := by
  rcases env with ⟨f, r, i, o⟩
  simp only at h1
  subst h1
  cases hp : p.dataIsDict <;>
    cases r <;> cases i <;> cases o <;>
      simp [onload, onloadHooks, hrec, hp, List.count_cons, List.count_append]

/-- Claim C2 witness: a concrete json-typed plugin whose first and retried
loads both fail: the heal write and the two load attempts appear, and
the retry failure propagates as the underlying missing-file error. -/
theorem c2_witness :
    OnloadEv.writeFile (healPath samplePlugin) emptyObjectLiteral ∈
      (onload samplePlugin
        ⟨.error .fileNotFound, .error .fileNotFound, .ok (), .ok ()⟩).1 ∧
    ((onload samplePlugin
        ⟨.error .fileNotFound, .error .fileNotFound, .ok (), .ok ()⟩).1).count
      (OnloadEv.loadAttempt (dataPath samplePlugin)) = 2 ∧
    (onload samplePlugin
        ⟨.error .fileNotFound, .error .fileNotFound, .ok (), .ok ()⟩).2 =
      .error (.loadErr .fileNotFound) := by
  have h := c2_selfheal_writes_json_once samplePlugin
    ⟨.error .fileNotFound, .error .fileNotFound, .ok (), .ok ()⟩
    .fileNotFound rfl rfl
  exact ⟨h.1, h.2.1, h.2.2 .fileNotFound rfl⟩

/-- Boolean success test of construction. -/
def initOk (attrs : ClassAttrs) (kwd : Kwd) (debug : Bool) (workDir : String)
    (fs : FS) : Bool :=
  match (init attrs kwd debug workDir fs).1 with
  | .ok _ => true
  | .error _ => false

theorem firstLoad_registerHandler (p : Plugin) (bus : EventBus) :
    ((registerHandler p bus).1.1).firstLoad = p.firstLoad := rfl

theorem firstLoad_unregisterHandler (p : Plugin) (tok : Nat) :
    ((unregisterHandler p tok).1).firstLoad = p.firstLoad := by
  by_cases hm : tok ∈ p.handlers <;> simp [unregisterHandler, hm]

theorem firstLoad_runOps (ops : List Op) (st : Plugin × EventBus) :
    ((runOps ops st).1.1).firstLoad = st.1.firstLoad := by
  induction ops generalizing st with
  | nil => rfl
  | cons op ops ih =>
      cases op with
      | register =>
          rw [runOps]
          exact (ih _).trans (firstLoad_registerHandler st.1 st.2)
      | unregister tok =>
          rw [runOps]
          exact (ih _).trans (firstLoad_unregisterHandler st.1 tok)

theorem init_ok_firstLoad (attrs : ClassAttrs) (kwd : Kwd) (debug : Bool)
    (workDir : String) (fs : FS) (p : Plugin)
    (h : (init attrs kwd debug workDir fs).1 = .ok p) :
    p.firstLoad = (match fs.workDirEntry with
      | .absent => true
      | _ => !fs.dataFileExists) := by
  by_cases hn : isFalsy attrs.name
  · simp [init, hn] at h
  by_cases hv : isFalsy attrs.version
  · simp [init, hn, hv] at h
  obtain ⟨wde, dfe⟩ := fs
  cases wde <;> simp [init, hn, hv] at h <;> subst h <;> rfl

/-- Claim C7 counterexample: for the valid identity pair (p, 1.0) and a
file-system state whose workDir path is an existing non-directory
entry, construction fails with the load error — refuting that
construction succeeds for every valid non-empty pair. -/
theorem c7_valid_pair_construction_fails :
    isFalsy (ClassAttrs.mk (some "p") (some "1.0") (some "json") (some [])).name
        = false ∧
    isFalsy (ClassAttrs.mk (some "p") (some "1.0") (some "json") (some [])).version
        = false ∧
    (init (ClassAttrs.mk (some "p") (some "1.0") (some "json") (some []))
        (Kwd.mk none none none none) false "w" ⟨.file, false⟩).1 =
      .error (.pluginLoadError "p" "work path is not a directory") := by
  refine ⟨rfl, rfl, rfl⟩

/-- Claim C7 (amended): a construction attempt with an unset or empty name
or version fails with the configuration error and leaves the file
system untouched (no directory created); a valid non-empty pair
succeeds, creating workDir when absent, provided the workDir path is
not a pre-existing non-directory entry (in which case a load error is
raised instead, also with no file-system change). -/
theorem c7_construction_contract (attrs : ClassAttrs) (kwd : Kwd)
    (debug : Bool) (workDir : String) (fs : FS) :
    ((isFalsy attrs.name = true ∨ isFalsy attrs.version = true) →
      (∃ m, (init attrs kwd debug workDir fs).1 = .error (.valueError m)) ∧
      (init attrs kwd debug workDir fs).2 = fs) ∧
    (isFalsy attrs.name = false → isFalsy attrs.version = false →
      fs.workDirEntry ≠ .file →
      initOk attrs kwd debug workDir fs = true ∧
      (init attrs kwd debug workDir fs).2.workDirEntry = .dir ∧
      (init attrs kwd debug workDir fs).2.dataFileExists = fs.dataFileExists) ∧
    (isFalsy attrs.name = false → isFalsy attrs.version = false →
      fs.workDirEntry = .file →
      (init attrs kwd debug workDir fs).1 =
        .error (.pluginLoadError ((applyKwd attrs.name kwd.name).getD "")
          "work path is not a directory") ∧
      (init attrs kwd debug workDir fs).2 = fs) := by
  refine ⟨?_, ?_, ?_⟩
  · rintro (hn | hv)
    · exact ⟨⟨"missing plugin name", by simp [init, hn]⟩, by simp [init, hn]⟩
    · by_cases hn : isFalsy attrs.name
      · exact ⟨⟨"missing plugin name", by simp [init, hn]⟩, by simp [init, hn]⟩
      · exact ⟨⟨"missing plugin version", by simp [init, hn, hv]⟩,
          by simp [init, hn, hv]⟩
  · intro hn hv hfile
    obtain ⟨wde, dfe⟩ := fs
    cases wde
    · exact ⟨by simp [initOk, init, hn, hv], by simp [init, hn, hv],
        by simp [init, hn, hv]⟩
    · exact ⟨by simp [initOk, init, hn, hv], by simp [init, hn, hv],
        by simp [init, hn, hv]⟩
    · exact absurd rfl hfile
  · intro hn hv hfile
    obtain ⟨wde, dfe⟩ := fs
    simp only at hfile
    subst hfile
    exact ⟨by simp [init, hn, hv], by simp [init, hn, hv]⟩

/-- Claim C7 witness: missing name leaves the file system untouched with a
configuration error; the valid pair over an absent workDir constructs
successfully and the directory exists afterwards. -/
theorem c7_witness :
    (∃ m, (init (ClassAttrs.mk none (some "1.0") (some "json") (some []))
        (Kwd.mk none none none none) false "w" ⟨.absent, false⟩).1 =
      .error (.valueError m)) ∧
    (init (ClassAttrs.mk none (some "1.0") (some "json") (some []))
        (Kwd.mk none none none none) false "w" ⟨.absent, false⟩).2 =
      ⟨.absent, false⟩ ∧
    initOk (ClassAttrs.mk (some "p") (some "1.0") (some "json") (some []))
        (Kwd.mk none none none none) false "w" ⟨.absent, false⟩ = true ∧
    (init (ClassAttrs.mk (some "p") (some "1.0") (some "json") (some []))
        (Kwd.mk none none none none) false "w"
        ⟨.absent, false⟩).2.workDirEntry = .dir := by
  have h1 := (c7_construction_contract
    (ClassAttrs.mk none (some "1.0") (some "json") (some []))
    (Kwd.mk none none none none) false "w" ⟨.absent, false⟩).1 (Or.inl rfl)
  have h2 := (c7_construction_contract
    (ClassAttrs.mk (some "p") (some "1.0") (some "json") (some []))
    (Kwd.mk none none none none) false "w" ⟨.absent, false⟩).2.1 rfl rfl
    (by decide)
  exact ⟨h1.1, h1.2, h2.1, h2.2.1⟩

/-- Claim C8: for every successful construction, the first-load flag is
true exactly when the workDir path was absent or the data file was
absent immediately before construction, and no registry or lifecycle
operation of this core ever changes the flag afterwards. -/
theorem c8_firstLoad_characterization (attrs : ClassAttrs) (kwd : Kwd)
    (debug : Bool) (workDir : String) (fs : FS) (p : Plugin)
    (h : (init attrs kwd debug workDir fs).1 = .ok p) :
    (p.firstLoad = true ↔
      (fs.workDirEntry = .absent ∨ fs.dataFileExists = false)) ∧
    (∀ bus, ((registerHandler p bus).1.1).firstLoad = p.firstLoad) ∧
    (∀ tok, ((unregisterHandler p tok).1).firstLoad = p.firstLoad) ∧
    (∀ bus args env, ((unload p bus args env).1.1).firstLoad = p.firstLoad) ∧
    (∀ ops bus, ((runOps ops (p, bus)).1.1).firstLoad = p.firstLoad) := by
  refine ⟨?_, fun bus => firstLoad_registerHandler p bus,
    fun tok => firstLoad_unregisterHandler p tok,
    fun bus args env => by rw [unload_fst_plugin],
    fun ops bus => firstLoad_runOps ops (p, bus)⟩
  rw [init_ok_firstLoad attrs kwd debug workDir fs p h]
  obtain ⟨wde, dfe⟩ := fs
  cases wde <;> cases dfe <;> simp

/-- Claim C8 witness: constructing over an existing workDir whose data file
also exists yields a first-load flag that is false. -/
theorem c8_witness :
    ((Plugin.mk "p" "1.0" "json" [] "w" false false false [] []).firstLoad = true ↔
      ((⟨.dir, true⟩ : FS).workDirEntry = .absent ∨
        (⟨.dir, true⟩ : FS).dataFileExists = false)) :=
  (c8_firstLoad_characterization
    (ClassAttrs.mk (some "p") (some "1.0") (some "json") (some []))
    (Kwd.mk none none none none) false "w" ⟨.dir, true⟩
    (Plugin.mk "p" "1.0" "json" [] "w" false false false [] []) (by decide)).1

/-- Claim C10: the identity check runs before the extra keyword attributes
are applied — a subclass without a non-empty declared name (or, with a
name, without a non-empty declared version) fails construction with the
corresponding configuration error for EVERY keyword record, including
ones supplying a non-empty name or version. -/
theorem c10_identity_check_before_kwd (attrs : ClassAttrs) (kwd : Kwd)
    (debug : Bool) (workDir : String) (fs : FS) :
    (isFalsy attrs.name = true →
      (init attrs kwd debug workDir fs).1 =
        .error (.valueError "missing plugin name")) ∧
    (isFalsy attrs.name = false → isFalsy attrs.version = true →
      (init attrs kwd debug workDir fs).1 =
        .error (.valueError "missing plugin version")) := by
  constructor
  · intro hn
    simp [init, hn]
  · intro hn hv
    simp [init, hn, hv]

/-- Claim C10 witness: a subclass with no declared name fails with the
name configuration error even though the keyword record supplies the
non-empty name X. -/
theorem c10_witness :
    (init (ClassAttrs.mk none (some "1.0") (some "json") (some []))
        (Kwd.mk (some "X") (some "2.0") none none) false "w"
        ⟨.absent, false⟩).1 =
      .error (.valueError "missing plugin name") :=
  (c10_identity_check_before_kwd
    (ClassAttrs.mk none (some "1.0") (some "json") (some []))
    (Kwd.mk (some "X") (some "2.0") none none) false "w" ⟨.absent, false⟩).1 rfl

end NcatBot
